import Mathlib

/-!
Shallow embedding of the PCB layout generation module (`utils/pcb_layout.py`)
of the `circuit_proj` repository, together with theorems settling the frozen
claims about it.

Modelling conventions:
* Python floats are modelled as real numbers (`ℝ`); machine rounding is not a
  subject of any claim.
* `np.random.uniform` draws are modelled by an explicit stream
  `draws : ℕ → ℝ × ℝ` of (x, y) samples; theorems that depend on the sampling
  support carry an explicit hypothesis that each draw lies inside the sampled
  rectangle.
* Text file contents (Gerber, drill, assembly documents) are not modelled:
  only which files are produced (their result keys and paths) and the list of
  file writes performed, which is what the claims refer to.
* Python exceptions that `generate_pcb_layout` catches are modelled with
  `Except`; the exact exception message texts are abbreviated but always
  non-empty, mirroring the non-empty `str(e)` of the source.
-/

namespace PcbLayout

/-- Component types for placement optimization (`ComponentType` enum). -/
inductive ComponentType where
  | microcontroller
  | resistor
  | capacitor
  | led
  | connector
  | ic
  | crystal
  | inductor
deriving DecidableEq, Repr

/-- The `.value` string of each `ComponentType` enum member. -/
def ComponentType.value : ComponentType → String
  | .microcontroller => "microcontroller"
  | .resistor => "resistor"
  | .capacitor => "capacitor"
  | .led => "led"
  | .connector => "connector"
  | .ic => "ic"
  | .crystal => "crystal"
  | .inductor => "inductor"

/-- Component placement information (`ComponentPlacement` dataclass). -/
structure ComponentPlacement where
  reference : String
  x : ℝ
  y : ℝ
  rotation : ℝ
  layer : String
  component_type : ComponentType
  thermal_power : ℝ := 0.0
  critical_timing : Bool := false

/-- PCB design constraints (`PCBConstraints` dataclass).  `layer_count` is a
Python number; it is modelled as a real so that the comparisons
`layer_count > 2` and `layer_count >= 4` are faithful for any numeric input. -/
structure PCBConstraints where
  board_width : ℝ := 100.0
  board_height : ℝ := 80.0
  min_trace_width : ℝ := 0.2
  min_via_size : ℝ := 0.3
  min_spacing : ℝ := 0.2
  layer_count : ℝ := 2
  max_current_density : ℝ := 35.0

/-- Routing network information (`RoutingNet` dataclass). -/
structure RoutingNet where
  name : String
  pins : List (String × String)
  priority : ℕ := 1
  differential_pair : Bool := false
  impedance_target : Option ℝ := none
  max_length : Option ℝ := none

/-- Complete PCB design data (`PCBDesign` dataclass). -/
structure PCBDesign where
  components : List ComponentPlacement := []
  nets : List RoutingNet := []
  constraints : PCBConstraints := {}
  board_outline : List (ℝ × ℝ) := []

/-- Euclidean distance between two points, as computed by
`math.sqrt((x1 - x2)**2 + (y1 - y2)**2)` throughout the source. -/
noncomputable def dist2 (p q : ℝ × ℝ) : ℝ :=
  Real.sqrt ((p.1 - q.1) ^ 2 + (p.2 - q.2) ^ 2)

/-- `AdvancedRouter._calculate_diff_pair_geometry`: trace (width, spacing)
for a differential pair at the given target impedance. -/
noncomputable def calculate_diff_pair_geometry (impedance : ℝ) : ℝ × ℝ :=
  if impedance = 100.0 then (0.2, 0.2)
  else if impedance = 90.0 then (0.25, 0.15)
  else
    let width := 0.2 + (100 - impedance) * 0.001
    let spacing := 0.2 - (100 - impedance) * 0.001
    (max width 0.1, max spacing 0.1)

/-- `AdvancedRouter._calculate_power_trace_width`: IPC-2221-style required
trace width for a given current, clamped to the constraint minimum. -/
noncomputable def calculate_power_trace_width (constraints : PCBConstraints)
    (current : ℝ) : ℝ :=
  let temp_rise : ℝ := 10.0
  let k : ℝ := 0.048
  let b : ℝ := 0.44
  let c : ℝ := 0.725
  let width_mils : ℝ := (current / (k * temp_rise ^ b)) ^ (1 / c)
  let width_mm : ℝ := width_mils * 0.0254
  max width_mm constraints.min_trace_width

/-- `np.arange(start, stop, step)` for the positive steps used by the source:
the values `start + i*step` for `0 ≤ i < ⌈(stop - start)/step⌉`. -/
noncomputable def arange (start stop step : ℝ) : List ℝ :=
  (List.range ⌈(stop - start) / step⌉₊).map (fun i : ℕ => start + (i : ℝ) * step)

/-- The validity test inside `ComponentPlacer._find_thermal_position`:
a candidate is valid when no already-placed component is closer than
`min_distance`. -/
noncomputable def thermal_valid (existing : List ComponentPlacement)
    (min_distance : ℝ) (p : ℝ × ℝ) : Bool :=
  existing.all (fun comp => !(decide (dist2 p (comp.x, comp.y) < min_distance)))

/-- The attempt loop of `ComponentPlacer._find_thermal_position`: try up to
`fuel` draws (the source uses 100), returning the first valid one, else the
fallback position `(20, 20)`. -/
noncomputable def find_thermal_go (draws : ℕ → ℝ × ℝ)
    (existing : List ComponentPlacement) (min_distance : ℝ) : ℕ → ℝ × ℝ
  | 0 => (20.0, 20.0)
  | Nat.succ fuel =>
      let p := draws (100 - Nat.succ fuel)
      if thermal_valid existing min_distance p then p
      else find_thermal_go draws existing min_distance fuel

/-- `ComponentPlacer._find_thermal_position`: 100 random attempts, then the
grid fallback `(20, 20)`. -/
noncomputable def find_thermal_position (draws : ℕ → ℝ × ℝ)
    (existing : List ComponentPlacement) (min_distance : ℝ) : ℝ × ℝ :=
  find_thermal_go draws existing min_distance 100

/-- The availability test inside `ComponentPlacer._find_available_position`:
a grid cell is available when no already-placed component is within 5 mm. -/
noncomputable def position_available (existing : List ComponentPlacement)
    (p : ℝ × ℝ) : Bool :=
  existing.all (fun comp => !(decide (dist2 p (comp.x, comp.y) < 5.0)))

/-- The row-major grid scanned by `ComponentPlacer._find_available_position`
(y outer, x inner, 2.54 mm pitch, 10 mm inset). -/
noncomputable def grid_candidates (constraints : PCBConstraints) : List (ℝ × ℝ) :=
  (arange 10 (constraints.board_height - 10) 2.54).flatMap (fun y =>
    (arange 10 (constraints.board_width - 10) 2.54).map (fun x => (x, y)))

/-- `ComponentPlacer._find_available_position`: first available grid cell,
else the fallback position `(10, 10)`. -/
noncomputable def find_available_position (constraints : PCBConstraints)
    (existing : List ComponentPlacement) : ℝ × ℝ :=
  match (grid_candidates constraints).find? (position_available existing) with
  | some p => p
  | none => (10.0, 10.0)

/-- The high-power loop of `ComponentPlacer.thermal_aware_placement`: the
first high-power component goes to the board center, each later one to
`_find_thermal_position` with minimum distance `10 + 5 × its own power`.
Each placement call advances the draw stream by the 100 attempts the source
can consume. -/
noncomputable def place_high_power (constraints : PCBConstraints)
    (draws : ℕ → ℝ × ℝ) (placed : List ComponentPlacement) :
    List ComponentPlacement → List ComponentPlacement
  | [] => placed
  | c :: rest =>
      let pos :=
        if placed.isEmpty then
          (constraints.board_width / 2, constraints.board_height / 2)
        else
          find_thermal_position draws placed (10.0 + c.thermal_power * 5.0)
      place_high_power constraints (fun n => draws (n + 100))
        (placed ++ [{ c with x := pos.1, y := pos.2 }]) rest

/-- The low-power loop of `ComponentPlacer.thermal_aware_placement`: each
low-power component goes to the first available grid cell. -/
noncomputable def place_low_power (constraints : PCBConstraints)
    (placed : List ComponentPlacement) :
    List ComponentPlacement → List ComponentPlacement
  | [] => placed
  | c :: rest =>
      let pos := find_available_position constraints placed
      place_low_power constraints
        (placed ++ [{ c with x := pos.1, y := pos.2 }]) rest

/-- `ComponentPlacer.thermal_aware_placement`: place high-power components
(thermal power > 0.5 W) with thermal spacing, then low-power ones on the
grid. -/
noncomputable def thermal_aware_placement (constraints : PCBConstraints)
    (draws : ℕ → ℝ × ℝ) (components : List ComponentPlacement) :
    List ComponentPlacement :=
  let high_power := components.filter (fun c => decide (0.5 < c.thermal_power))
  let low_power := components.filter (fun c => decide (c.thermal_power ≤ 0.5))
  place_low_power constraints
    (place_high_power constraints draws [] high_power) low_power

/-- The ordered list of component indices collected into
`critical_components` by `ComponentPlacer.signal_integrity_placement`:
for each pin of each critical net, the first component with that reference,
deduplicated in discovery order. -/
def critical_indices (components : List ComponentPlacement)
    (critical_nets : List RoutingNet) : List ℕ :=
  critical_nets.foldl (fun acc net =>
    net.pins.foldl (fun acc2 pr =>
      match components.findIdx? (fun c => c.reference == pr.1) with
      | some j => if j ∈ acc2 then acc2 else acc2 ++ [j]
      | none => acc2) acc) []

/-- `ComponentPlacer.signal_integrity_placement`: mark every component touched
by a critical net as critical-timing and re-position the `i`-th of them on a
circle of radius 15 mm around the board center at angle `2πi/n`. -/
noncomputable def signal_integrity_placement (constraints : PCBConstraints)
    (components : List ComponentPlacement) (critical_nets : List RoutingNet) :
    List ComponentPlacement :=
  let crit := critical_indices components critical_nets
  let center_x := constraints.board_width / 2
  let center_y := constraints.board_height / 2
  components.enum.map (fun jc =>
    let i := crit.indexOf jc.1
    if i < crit.length then
      { jc.2 with
        critical_timing := true
        x := center_x + 15.0 * Real.cos (2 * Real.pi * i / crit.length)
        y := center_y + 15.0 * Real.sin (2 * Real.pi * i / crit.length) }
    else jc.2)

/-- Whether the first character list is a prefix of the second. -/
def char_prefix : List Char → List Char → Bool
  | [], _ => true
  | _ :: _, [] => false
  | a :: as, b :: bs => a == b && char_prefix as bs

/-- Whether the first character list occurs contiguously in the second. -/
def char_infix : List Char → List Char → Bool
  | pat, [] => char_prefix pat []
  | pat, c :: rest => char_prefix pat (c :: rest) || char_infix pat rest

/-- Substring containment, modelling Python's `sub in s`. -/
def str_contains (s sub : String) : Bool :=
  char_infix sub.data s.data

/-- Python's `s.startswith(pre)`. -/
def str_starts_with (s pre : String) : Bool :=
  char_prefix pre.data s.data

/-- Python's `s.upper()`. -/
def str_upper (s : String) : String :=
  String.mk (s.data.map Char.toUpper)

/-- Python's `s.lower()`. -/
def str_lower (s : String) : String :=
  String.mk (s.data.map Char.toLower)

/-- `AdvancedRouter._estimate_route_length`. -/
noncomputable def estimate_route_length (net : RoutingNet) : ℝ :=
  20.0 + net.pins.length * 5.0

/-- `AdvancedRouter._estimate_voltage_drop`. -/
noncomputable def estimate_voltage_drop (net : RoutingNet) (current : ℝ)
    (trace_width : ℝ) : ℝ :=
  let length := estimate_route_length net
  let resistance := 0.017 * length / (trace_width * 0.035)
  current * resistance

/-- A decoupling capacitor recommendation from
`AdvancedRouter._place_decoupling_caps`. -/
structure DecouplingCap where
  value : String
  package : String
  placement : String
  distance : ℝ

/-- `AdvancedRouter._place_decoupling_caps`: one 100 nF capacitor near each
pin whose component reference contains `IC` or `U`. -/
noncomputable def place_decoupling_caps (net : RoutingNet) : List DecouplingCap :=
  (net.pins.filter (fun pr =>
      str_contains pr.1 "IC" || str_contains pr.1 "U")).map (fun pr =>
    { value := "100nF", package := "0603",
      placement := "near_" ++ pr.1, distance := 2.0 })

/-- One entry of the routing results produced by
`AdvancedRouter.differential_pair_routing`. -/
structure DiffRoute where
  net_name : String
  trace_width : ℝ
  trace_spacing : ℝ
  impedance : ℝ
  length_matching : Bool
  via_count : ℕ
  total_length : ℝ
  layer_changes : ℕ

/-- `AdvancedRouter.differential_pair_routing`: route every net flagged as a
differential pair with the given target impedance (the call site uses the
default 100 Ω). -/
noncomputable def differential_pair_routing (constraints : PCBConstraints)
    (pairs : List RoutingNet) (impedance_target : ℝ) :
    List (String × DiffRoute) :=
  (pairs.filter (fun pair => pair.differential_pair)).map (fun pair =>
    let geom := calculate_diff_pair_geometry impedance_target
    (pair.name,
     { net_name := pair.name
       trace_width := geom.1
       trace_spacing := geom.2
       impedance := impedance_target
       length_matching := true
       via_count := 0
       total_length := estimate_route_length pair
       layer_changes := if 2 < constraints.layer_count then 1 else 0 }))

/-- The plane/pour design part of a PDN entry. -/
inductive PlaneDesign where
  | plane (plane_layer : String) (decoupling_caps : List DecouplingCap)
  | pour (trace_width : ℝ)

/-- One entry of the results of `AdvancedRouter.power_distribution_network`. -/
structure PdnEntry where
  current_capacity : ℝ
  trace_width : ℝ
  voltage_drop : ℝ
  design : PlaneDesign

/-- `AdvancedRouter.power_distribution_network`: size traces (or planes, for
four or more layers) for every net whose name starts with a power prefix. -/
noncomputable def power_distribution_network (constraints : PCBConstraints)
    (power_nets : List RoutingNet)
    (current_requirements : List (String × ℝ)) : List (String × PdnEntry) :=
  (power_nets.filter (fun net =>
      str_starts_with net.name "VCC" || str_starts_with net.name "VDD" ||
      str_starts_with net.name "GND" || str_starts_with net.name "+" ||
      str_starts_with net.name "-")).map (fun net =>
    let current_req :=
      match (current_requirements.find? (fun kv => kv.1 == net.name)) with
      | some kv => kv.2
      | none => 0.1
    let trace_width := calculate_power_trace_width constraints current_req
    let design :=
      if 4 ≤ constraints.layer_count then
        PlaneDesign.plane
          (if str_contains net.name "VCC" || str_contains net.name "VDD"
           then "Power" else "Ground")
          (place_decoupling_caps net)
      else PlaneDesign.pour trace_width
    (net.name,
     { current_capacity := current_req
       trace_width := trace_width
       voltage_drop := estimate_voltage_drop net current_req trace_width
       design := design }))

/-- All ordered pairs `(l[i], l[j])` with `i < j`, as produced by the nested
`for i, a in enumerate(l): for b in l[i+1:]` loops of the DRC checks. -/
def ordered_pairs {α : Type} : List α → List (α × α)
  | [] => []
  | x :: xs => (xs.map (fun y => (x, y))) ++ ordered_pairs xs

/-- The two lists produced by one DRC rule category. -/
structure CheckResult where
  violations : List String
  warnings : List String

/-- `AdvancedDRC._check_electrical_connectivity`: nets with fewer than two
pins are violations; component pairs closer than 2 mm are warnings. -/
noncomputable def check_electrical_connectivity (pcb_design : PCBDesign) :
    CheckResult :=
  { violations :=
      (pcb_design.nets.filter (fun net => decide (net.pins.length < 2))).map
        (fun net => "Net " ++ net.name ++ " has insufficient connections")
    warnings :=
      ((ordered_pairs pcb_design.components).filter (fun pr =>
          decide (dist2 (pr.1.x, pr.1.y) (pr.2.x, pr.2.y) < 2.0))).map
        (fun pr =>
          "Components " ++ pr.1.reference ++ " and " ++ pr.2.reference ++
          " may be too close") }

/-- `AdvancedDRC._check_manufacturing_constraints`.  Trace/via limits read the
engine's own constraints (`self.constraints`); the board-size warning reads
the design's constraints, exactly as the source does. -/
noncomputable def check_manufacturing_constraints (self_constraints : PCBConstraints)
    (pcb_design : PCBDesign) : CheckResult :=
  { violations :=
      (if self_constraints.min_trace_width < 0.1 then
        ["Minimum trace width below manufacturing limit"] else []) ++
      (if self_constraints.min_via_size < 0.2 then
        ["Minimum via size below manufacturing limit"] else [])
    warnings :=
      if 200 < pcb_design.constraints.board_width ∨
         200 < pcb_design.constraints.board_height then
        ["Large board size may increase manufacturing cost"] else [] }

/-- The per-net warning of `AdvancedDRC._check_signal_integrity_rules`:
a declared positive impedance target that is unusual for its pair kind. -/
noncomputable def si_net_warnings (net : RoutingNet) : List String :=
  match net.impedance_target with
  | none => []
  | some target =>
      if 0 < target then
        if net.differential_pair = false ∧ target < 50 then
          ["Net " ++ net.name ++ " has unusual single-ended impedance"]
        else if net.differential_pair = true ∧ (target < 90 ∨ 110 < target) then
          ["Differential pair " ++ net.name ++ " has unusual impedance target"]
        else []
      else []

/-- `AdvancedDRC._check_signal_integrity_rules`: impedance-target warnings
plus a warning when critical-timing components are more than 30 mm apart. -/
noncomputable def check_signal_integrity_rules (pcb_design : PCBDesign) :
    CheckResult :=
  let critical_components :=
    pcb_design.components.filter (fun c => c.critical_timing)
  let max_distance :=
    ((ordered_pairs critical_components).map (fun pr =>
        dist2 (pr.1.x, pr.1.y) (pr.2.x, pr.2.y))).foldl max 0
  { violations := []
    warnings :=
      (pcb_design.nets.flatMap si_net_warnings) ++
      (if 1 < critical_components.length ∧ 30 < max_distance then
        ["Critical timing components are far apart - consider closer placement"]
       else []) }

/-- The pair warning text of `AdvancedDRC._check_thermal_management`. -/
def thermal_pair_warning (c1 c2 : ComponentPlacement) : String :=
  "High-power components " ++ c1.reference ++ " and " ++ c2.reference ++
  " may need more thermal spacing"

/-- `AdvancedDRC._check_thermal_management`: warn on high-power pairs closer
than `5 + 2×(p1+p2)` mm, and suggest thermal vias when total power exceeds
2 W on a board with at least four layers. -/
noncomputable def check_thermal_management (pcb_design : PCBDesign) :
    CheckResult :=
  let high_power :=
    pcb_design.components.filter (fun c => decide (0.5 < c.thermal_power))
  { violations := []
    warnings :=
      ((ordered_pairs high_power).filter (fun pr =>
          decide (dist2 (pr.1.x, pr.1.y) (pr.2.x, pr.2.y) <
            5.0 + (pr.1.thermal_power + pr.2.thermal_power) * 2.0))).map
        (fun pr => thermal_pair_warning pr.1 pr.2) ++
      (if 2 < (pcb_design.components.map (fun c => c.thermal_power)).sum ∧
          4 ≤ pcb_design.constraints.layer_count then
        ["Consider adding thermal vias for high-power design"] else []) }

/-- The result record of `AdvancedDRC.comprehensive_rule_check`. -/
structure DRCResults where
  violations : List String
  warnings : List String
  violation_count : ℕ
  warning_count : ℕ
  drc_pass : Bool

/-- `AdvancedDRC.comprehensive_rule_check`: merge the four rule categories,
in source order, and aggregate counts; `pass` is `true` iff there are no
violations. -/
noncomputable def comprehensive_rule_check (self_constraints : PCBConstraints)
    (pcb_design : PCBDesign) : DRCResults :=
  let electrical := check_electrical_connectivity pcb_design
  let manufacturing := check_manufacturing_constraints self_constraints pcb_design
  let si := check_signal_integrity_rules pcb_design
  let thermal := check_thermal_management pcb_design
  let violations := electrical.violations ++ manufacturing.violations ++
    si.violations ++ thermal.violations
  let warnings := electrical.warnings ++ manufacturing.warnings ++
    si.warnings ++ thermal.warnings
  { violations := violations
    warnings := warnings
    violation_count := violations.length
    warning_count := warnings.length
    drc_pass := violations.length == 0 }

/-- The Gerber layer files generated by
`ManufacturingOutputs.generate_gerber_files`: result key (the layer value)
and file name, in generation order.  File contents are not modelled. -/
def gerber_layer_files (project_name : String) : List (String × String) :=
  [("F.Cu", project_name ++ "-F_Cu.gbr"),
   ("B.Cu", project_name ++ "-B_Cu.gbr"),
   ("F.SilkS", project_name ++ "-F_SilkS.gbr"),
   ("B.SilkS", project_name ++ "-B_SilkS.gbr"),
   ("F.Mask", project_name ++ "-F_Mask.gbr"),
   ("B.Mask", project_name ++ "-B_Mask.gbr"),
   ("Edge.Cuts", project_name ++ "-Edge_Cuts.gbr")]

/-- `ManufacturingOutputs.generate_gerber_files`: the returned mapping from
result key to written file path (seven layers, then the drill file, then the
pick-and-place file). -/
def generate_gerber_files (output_dir project_name : String) :
    List (String × String) :=
  (gerber_layer_files project_name).map
    (fun kv => (kv.1, output_dir ++ "/" ++ kv.2)) ++
  [("drill", output_dir ++ "/" ++ project_name ++ ".drl"),
   ("pick_place", output_dir ++ "/" ++ project_name ++ "-top-pos.csv")]

/-- `ManufacturingOutputs.generate_assembly_drawings`: the returned mapping
from result key to written file path. -/
def generate_assembly_drawings (output_dir project_name : String) :
    List (String × String) :=
  [("assembly_drawing", output_dir ++ "/" ++ project_name ++ "-assembly.txt"),
   ("assembly_notes",
    output_dir ++ "/" ++ project_name ++ "-assembly-notes.txt"),
   ("test_points", output_dir ++ "/" ++ project_name ++ "-test-points.txt")]

/-- The file paths written during manufacturing-output generation, in write
order (none are written when the pipeline fails before this stage). -/
def written_files (output_dir project_name : String) : List String :=
  (generate_gerber_files output_dir project_name).map (fun kv => kv.2) ++
  (generate_assembly_drawings output_dir project_name).map (fun kv => kv.2)

/-- The static component database of `IntelligentBOM._get_component_info`:
description, manufacturer, part number. -/
def component_info (t : ComponentType) : String × String × String :=
  match t with
  | .resistor => ("0603 Resistor, 1% tolerance", "Yageo", "RC0603FR-07220RL")
  | .capacitor => ("0603 Ceramic Capacitor, X7R", "Murata", "GRM188R71H104KA93D")
  | .led => ("0603 LED, Red, 2V", "Kingbright", "APT1608EC")
  | .microcontroller => ("Arduino Uno R3", "Arduino", "A000066")
  | _ => (t.value ++ " component", "Generic", "TBD")

/-- The simulated base prices of `IntelligentBOM._get_pricing_info`, keyed by
part number, defaulting to 1.00. -/
noncomputable def base_price (part_number : String) : ℝ :=
  if part_number = "RC0603FR-07220RL" then 0.02
  else if part_number = "GRM188R71H104KA93D" then 0.05
  else if part_number = "APT1608EC" then 0.15
  else if part_number = "A000066" then 25.00
  else 1.00

/-- `IntelligentBOM._group_components`: group components by the string value
of their component type, preserving first-seen key order and per-group
insertion order (a Python `dict` of lists). -/
def group_components (components : List ComponentPlacement) :
    List (String × List ComponentPlacement) :=
  components.foldl (fun groups c =>
    let key := c.component_type.value
    if groups.any (fun g => g.1 == key) then
      groups.map (fun g => if g.1 == key then (g.1, g.2 ++ [c]) else g)
    else groups ++ [(key, [c])]) []

/-- One BOM line item built by `IntelligentBOM.generate_optimized_bom`. -/
structure BomEntry where
  group_id : String
  references : List String
  quantity : ℕ
  component_type : String
  description : String
  manufacturer : String
  part_number : String
  unit_cost : ℝ
  total_cost : ℝ
  availability : String
  lead_time : String
  supplier : String

/-- The line item built for one component group by
`IntelligentBOM.generate_optimized_bom` (component info and pricing come from
the first component of the group). -/
noncomputable def mk_bom_entry (group : String × List ComponentPlacement) :
    BomEntry :=
  let t := match group.2 with
    | [] => ComponentType.ic
    | c :: _ => c.component_type
  let info := component_info t
  let unit_cost := base_price info.2.2
  { group_id := group.1
    references := group.2.map (fun c => c.reference)
    quantity := group.2.length
    component_type := t.value
    description := info.1
    manufacturer := info.2.1
    part_number := info.2.2
    unit_cost := unit_cost
    total_cost := unit_cost * group.2.length
    availability := if unit_cost < 10 then "In Stock" else "Limited Stock"
    lead_time := if unit_cost < 10 then "1-2 weeks" else "4-6 weeks"
    supplier := "DigiKey" }

/-- A supplier recommendation from
`IntelligentBOM._generate_supplier_recommendations`. -/
structure SupplierRecommendation where
  supplier : String
  reason : String
  estimated_savings : String

/-- An alternative-part suggestion from
`IntelligentBOM._find_alternative_components`. -/
structure AlternativePart where
  original_part : String
  alternative_part : String
  cost_savings : ℝ
  notes : String

/-- The result record of `IntelligentBOM.generate_optimized_bom`. -/
structure BOMData where
  components : List BomEntry
  total_cost : ℝ
  availability_status : String
  supplier_recommendations : List SupplierRecommendation
  alternatives : List AlternativePart

/-- `IntelligentBOM._generate_supplier_recommendations`. -/
noncomputable def supplier_recommendations (total_cost : ℝ) :
    List SupplierRecommendation :=
  (if total_cost < 50 then
    [{ supplier := "LCSC", reason := "Cost-effective for low-value orders",
       estimated_savings := "15-25%" }] else []) ++
  (if 100 < total_cost then
    [{ supplier := "DigiKey", reason := "Reliable supply chain for production",
       estimated_savings := "Volume discounts available" }] else []) ++
  [{ supplier := "Mouser", reason := "Good alternative source",
     estimated_savings := "Price matching available" }]

/-- `IntelligentBOM._find_alternative_components`: suggest substitutes for
line items priced above $1. -/
noncomputable def find_alternative_components (entries : List BomEntry) :
    List AlternativePart :=
  (entries.filter (fun e => decide (1.0 < e.unit_cost))).map (fun e =>
    { original_part := e.part_number
      alternative_part := "ALT-" ++ e.part_number
      cost_savings := e.unit_cost * 0.2
      notes := "Functionally equivalent, different manufacturer" })

/-- `IntelligentBOM.generate_optimized_bom`: group components, build one line
item per group, accumulate the total cost, and attach supplier and
alternative recommendations. -/
noncomputable def generate_optimized_bom (components : List ComponentPlacement) :
    BOMData :=
  let entries := (group_components components).map mk_bom_entry
  let total := (entries.map (fun e => e.total_cost)).sum
  { components := entries
    total_cost := total
    availability_status := "good"
    supplier_recommendations := supplier_recommendations total
    alternatives := find_alternative_components entries }

/-- A JSON-like Python value, the shape of the raw circuit description fed to
`PCBLayoutEngine.generate_pcb_layout`. -/
inductive PyVal where
  | dict : List (String × PyVal) → PyVal
  | lst : List PyVal → PyVal
  | str : String → PyVal
  | num : ℝ → PyVal
  | null : PyVal

/-- The Python `type(...)` display of a value, used in the top-level
type-check error message. -/
def py_type_name : PyVal → String
  | .dict _ => "<class 'dict'>"
  | .lst _ => "<class 'list'>"
  | .str _ => "<class 'str'>"
  | .num _ => "<class 'float'>"
  | .null => "<class 'NoneType'>"

/-- `d.get(key)` on a modelled Python dict: first entry with that key. -/
def lookup_key (entries : List (String × PyVal)) (key : String) : Option PyVal :=
  (entries.find? (fun kv => kv.1 == key)).map (fun kv => kv.2)

/-- `d.get(key, default)` where the value is then used as a string
(`.lower()`, `.upper()`, string formatting): a present non-string value makes
the source raise `AttributeError`, caught by the orchestrator. -/
def get_str (entries : List (String × PyVal)) (key default : String) :
    Except String String :=
  match lookup_key entries key with
  | none => .ok default
  | some (.str s) => .ok s
  | some _ => .error "AttributeError: value is not a string"

/-- `d.get(key, default)` where the value is then used as a number: a present
non-numeric value makes the source raise `TypeError` at the first arithmetic
or comparison on it, caught by the orchestrator. -/
def get_num (entries : List (String × PyVal)) (key : String) (default : ℝ) :
    Except String ℝ :=
  match lookup_key entries key with
  | none => .ok default
  | some (.num v) => .ok v
  | some _ => .error "TypeError: value is not a number"

/-- `PCBLayoutEngine._determine_component_type`, taking the already-lowered
`type` field and already-uppered `reference` field. -/
def determine_component_type (comp_name reference : String) : ComponentType :=
  if str_contains comp_name "arduino" || str_contains comp_name "microcontroller"
      || str_starts_with reference "U" then .microcontroller
  else if str_contains comp_name "resistor" || str_starts_with reference "R" then
    .resistor
  else if str_contains comp_name "capacitor" || str_starts_with reference "C" then
    .capacitor
  else if str_contains comp_name "led" || str_starts_with reference "D" then .led
  else if str_contains comp_name "connector" || str_starts_with reference "J" then
    .connector
  else if str_contains comp_name "crystal" || str_starts_with reference "Y" then
    .crystal
  else if str_contains comp_name "inductor" || str_starts_with reference "L" then
    .inductor
  else .ic

/-- `PCBLayoutEngine._estimate_thermal_power`, taking the already-lowered
`type` field. -/
noncomputable def estimate_thermal_power (comp_type : String) : ℝ :=
  if str_contains comp_type "arduino" || str_contains comp_type "microcontroller"
  then 0.5
  else if str_contains comp_type "led" then 0.1
  else if str_contains comp_type "resistor" then 0.05
  else 0.01

/-- `PCBLayoutEngine._determine_net_priority`. -/
def determine_net_priority (net_name : String) : ℕ :=
  let net_upper := str_upper net_name
  if str_contains net_upper "CLK" || str_contains net_upper "CLOCK" then 10
  else if str_contains net_upper "VCC" || str_contains net_upper "VDD" ||
    str_contains net_upper "GND" || str_contains net_upper "POWER" then 8
  else if str_contains net_upper "DATA" || str_contains net_upper "SDA" ||
    str_contains net_upper "SCL" then 6
  else 3

/-- The dict-to-list normalization of the `components` section: each category
maps to a record with that type, its value (or a default), and reference
`CATEGORY1`. -/
def convert_components_dict (items : List (String × PyVal)) : List PyVal :=
  items.map (fun kv =>
    match kv.2 with
    | .null => PyVal.dict
        [("type", .str kv.1),
         ("value", .str (if kv.1 == "resistor" then "220R" else "Red LED")),
         ("reference", .str (str_upper kv.1 ++ "1"))]
    | v => PyVal.dict
        [("type", .str kv.1), ("value", v),
         ("reference", .str (str_upper kv.1 ++ "1"))])

/-- The per-component parsing loop of `PCBLayoutEngine._parse_circuit_data`
(`i` is the running `enumerate` index, used for the default reference). -/
noncomputable def parse_components :
    List PyVal → ℕ → Except String (List ComponentPlacement)
  | [], _ => .ok []
  | v :: rest, i =>
      match v with
      | .dict cd => do
          let ty ← get_str cd "type" ""
          let ref_for_type ← get_str cd "reference" ""
          let reference ← get_str cd "reference" ("C" ++ toString (i + 1))
          let comp : ComponentPlacement :=
            { reference := reference
              x := 0.0
              y := 0.0
              rotation := 0.0
              layer := "F.Cu"
              component_type :=
                determine_component_type (str_lower ty) (str_upper ref_for_type)
              thermal_power := estimate_thermal_power (str_lower ty)
              critical_timing := false }
          let restComps ← parse_components rest (i + 1)
          .ok (comp :: restComps)
      | _ => .error "AttributeError: component record has no attribute get"

/-- Adding the two pin tuples of one connection record to a net, skipping
pins already present (`if pin not in net.pins`). -/
def add_pins (net : RoutingNet) (from_pin to_pin : String × String) :
    RoutingNet :=
  let pins1 := if from_pin ∈ net.pins then net.pins else net.pins ++ [from_pin]
  let pins2 := if to_pin ∈ pins1 then pins1 else pins1 ++ [to_pin]
  { net with pins := pins2 }

/-- Processing one connection record: create the net on first sight (with a
priority derived from its name) and append the two pin tuples. -/
def add_connection (nets : List RoutingNet)
    (conn : List (String × PyVal)) : Except String (List RoutingNet) := do
  let net_name ← get_str conn "net" ("Net_" ++ toString nets.length)
  let from_ref ← get_str conn "from" ""
  let from_pin ← get_str conn "from_pin" "1"
  let to_ref ← get_str conn "to" ""
  let to_pin ← get_str conn "to_pin" "1"
  .ok ((if nets.any (fun n => n.name == net_name) then nets
        else nets ++ [{ name := net_name, pins := [],
                        priority := determine_net_priority net_name }]).map
    (fun n =>
      if n.name == net_name then
        add_pins n (from_ref, from_pin) (to_ref, to_pin)
      else n))

/-- The connection-parsing loop of `PCBLayoutEngine._parse_circuit_data`. -/
def parse_connections :
    List PyVal → List RoutingNet → Except String (List RoutingNet)
  | [], nets => .ok nets
  | v :: rest, nets =>
      match v with
      | .dict conn => do
          let nets2 ← add_connection nets conn
          parse_connections rest nets2
      | _ => .error "AttributeError: connection record has no attribute get"

/-- The `constraints` section: absent means `{}`, a dict is used as is, and
anything else makes `.get` raise. -/
def get_constraints_data (entries : List (String × PyVal)) :
    Except String (List (String × PyVal)) :=
  match lookup_key entries "constraints" with
  | none => Except.ok []
  | some (.dict d) => Except.ok d
  | some _ => Except.error "AttributeError: constraints has no attribute get"

/-- The `components` section: absent means `[]`, a list is used as is, a dict
is normalized to the canonical list form, and anything else fails when the
source iterates it. -/
def get_components_data (entries : List (String × PyVal)) :
    Except String (List PyVal) :=
  match lookup_key entries "components" with
  | none => Except.ok []
  | some (.lst l) => Except.ok l
  | some (.dict d) => Except.ok (convert_components_dict d)
  | some _ => Except.error "TypeError: components object is not iterable"

/-- The `connections` section: absent means `[]`, a list is used as is, and
anything else fails when the source iterates it or calls `.get` on its
items. -/
def get_connections_data (entries : List (String × PyVal)) :
    Except String (List PyVal) :=
  match lookup_key entries "connections" with
  | none => Except.ok []
  | some (.lst l) => Except.ok l
  | some _ => Except.error "TypeError: connections object is not iterable"

/-- `PCBLayoutEngine._parse_circuit_data`: build the `PCBDesign` from the raw
circuit description (whose top level has already been checked to be a dict). -/
noncomputable def parse_circuit_data (entries : List (String × PyVal)) :
    Except String PCBDesign := do
  let constraints_data ← get_constraints_data entries
  let board_width ← get_num constraints_data "board_width" 80.0
  let board_height ← get_num constraints_data "board_height" 60.0
  let layer_count ← get_num constraints_data "layer_count" 2
  let min_trace_width ← get_num constraints_data "min_trace_width" 0.2
  let min_via_size ← get_num constraints_data "min_via_size" 0.3
  let constraints : PCBConstraints :=
    { board_width := board_width
      board_height := board_height
      min_trace_width := min_trace_width
      min_via_size := min_via_size
      min_spacing := 0.2
      layer_count := layer_count
      max_current_density := 35.0 }
  let components_data ← get_components_data entries
  let components ← parse_components components_data 0
  let connections ← get_connections_data entries
  let nets ← parse_connections connections []
  .ok { components := components
        nets := nets
        constraints := constraints
        board_outline :=
          [(0, 0), (constraints.board_width, 0),
           (constraints.board_width, constraints.board_height),
           (0, constraints.board_height), (0, 0)] }

/-- One thermal zone from `PCBLayoutEngine._identify_thermal_zones`. -/
structure ThermalZone where
  component : String
  center_x : ℝ
  center_y : ℝ
  power : ℝ
  radius : ℝ

/-- `PCBLayoutEngine._identify_thermal_zones`. -/
noncomputable def identify_thermal_zones (pcb_design : PCBDesign) :
    List ThermalZone :=
  (pcb_design.components.filter (fun c => decide (0.2 < c.thermal_power))).map
    (fun c =>
      { component := c.reference, center_x := c.x, center_y := c.y,
        power := c.thermal_power,
        radius := 5.0 + c.thermal_power * 10.0 })

/-- `PCBLayoutEngine._calculate_board_utilization`. -/
noncomputable def calculate_board_utilization (pcb_design : PCBDesign) : ℝ :=
  let total_area :=
    pcb_design.constraints.board_width * pcb_design.constraints.board_height
  let component_area := (pcb_design.components.length : ℝ) * 4.0
  min (component_area / total_area * 100) 100.0

/-- The successful result record of `PCBLayoutEngine.generate_pcb_layout`
(the human-readable `summary` string is not modelled; no claim concerns it). -/
structure LayoutResults where
  project_name : String
  pcb_design : PCBDesign
  placement_component_count : ℕ
  board_utilization : ℝ
  thermal_zones : List ThermalZone
  routing_differential_pairs : List (String × DiffRoute)
  routing_power_distribution : List (String × PdnEntry)
  routing_total_nets : ℕ
  drc_results : DRCResults
  manufacturing_files : List (String × String)
  assembly_documentation : List (String × String)
  bom : BOMData
  success : Bool

/-- The value returned by `PCBLayoutEngine.generate_pcb_layout`: either the
full results record, or the `{success: False, error, project_name}` record
produced by its `except` clause. -/
inductive LayoutOutcome where
  | ok : LayoutResults → LayoutOutcome
  | failure (error : String) (project_name : String) : LayoutOutcome

/-- The stage sequence of `PCBLayoutEngine.generate_pcb_layout` after a
successful parse: placement, signal-integrity placement, differential-pair
routing (with the default 100 Ω target), PDN design (0.5 A default per power
net), DRC, manufacturing files, assembly documentation, BOM. -/
noncomputable def build_layout_results (draws : ℕ → ℝ × ℝ)
    (output_dir : String) (design : PCBDesign) (project_name : String) :
    LayoutResults :=
  let constraints := design.constraints
  let placed0 := thermal_aware_placement constraints draws design.components
  let critical_nets := design.nets.filter (fun net => decide (5 < net.priority))
  let placed := signal_integrity_placement constraints placed0 critical_nets
  let diff_pairs := design.nets.filter (fun net => net.differential_pair)
  let routing_results := differential_pair_routing constraints diff_pairs 100.0
  let power_nets := design.nets.filter (fun net =>
    str_contains (str_upper net.name) "VCC" ||
    str_contains (str_upper net.name) "VDD" ||
    str_contains (str_upper net.name) "GND" ||
    str_contains (str_upper net.name) "POWER")
  let current_requirements := power_nets.map (fun net => (net.name, (0.5 : ℝ)))
  let pdn_results :=
    power_distribution_network constraints power_nets current_requirements
  let final_design : PCBDesign := { design with components := placed }
  let drc_results := comprehensive_rule_check constraints final_design
  let gerber_files := generate_gerber_files output_dir project_name
  let assembly_docs := generate_assembly_drawings output_dir project_name
  let bom_data := generate_optimized_bom placed
  { project_name := project_name
    pcb_design := final_design
    placement_component_count := placed.length
    board_utilization := calculate_board_utilization final_design
    thermal_zones := identify_thermal_zones final_design
    routing_differential_pairs := routing_results
    routing_power_distribution := pdn_results
    routing_total_nets := final_design.nets.length
    drc_results := drc_results
    manufacturing_files := gerber_files
    assembly_documentation := assembly_docs
    bom := bom_data
    success := drc_results.drc_pass }

/-- `PCBLayoutEngine.generate_pcb_layout`: validate that the circuit
description is a dict, run the pipeline, and turn any raised error into the
`{success: False, error, project_name}` record.  The second component is the
list of file paths written during the call. -/
noncomputable def generate_pcb_layout (draws : ℕ → ℝ × ℝ)
    (output_dir : String) (circuit_data : PyVal) (project_name : String) :
    LayoutOutcome × List String :=
  match circuit_data with
  | .dict entries =>
      match parse_circuit_data entries with
      | .ok design =>
          (.ok (build_layout_results draws output_dir design project_name),
           written_files output_dir project_name)
      | .error e => (.failure e project_name, [])
  | v =>
      (.failure ("Expected dict for circuit_data, got " ++ py_type_name v)
        project_name, [])

/-! ## Claims -/

/-- C2: for every DRC engine configuration and `PCBDesign`,
`comprehensive_rule_check` reports `pass = true` if and only if
`violation_count = 0` (independent of the warning count), and the two counts
equal the lengths of the violation and warning lists. -/
theorem drc_pass_iff_no_violations (cons : PCBConstraints) (d : PCBDesign) :
    ((comprehensive_rule_check cons d).drc_pass = true ↔
      (comprehensive_rule_check cons d).violation_count = 0) ∧
    (comprehensive_rule_check cons d).violation_count =
      (comprehensive_rule_check cons d).violations.length ∧
    (comprehensive_rule_check cons d).warning_count =
      (comprehensive_rule_check cons d).warnings.length := by
  refine ⟨?_, rfl, rfl⟩
  simp [comprehensive_rule_check]

/-- C3: the differential-pair geometry is `(0.2, 0.2)` at exactly 100 Ω,
`(0.25, 0.15)` at exactly 90 Ω, and for every other target `t` it is the
linear interpolation around the 100 Ω baseline, clamped below at 0.1 mm. -/
theorem diff_pair_geometry_spec (t : ℝ) (h100 : t ≠ 100) (h90 : t ≠ 90) :
    calculate_diff_pair_geometry 100 = (0.2, 0.2) ∧
    calculate_diff_pair_geometry 90 = (0.25, 0.15) ∧
    calculate_diff_pair_geometry t =
      (max (0.2 + (100 - t) * 0.001) 0.1,
       max (0.2 - (100 - t) * 0.001) 0.1) := by
  refine ⟨by norm_num [calculate_diff_pair_geometry],
    by norm_num [calculate_diff_pair_geometry], ?_⟩
  have h100' : t ≠ (100.0 : ℝ) := by
    intro h; exact h100 (by rw [h]; norm_num)
  have h90' : t ≠ (90.0 : ℝ) := by
    intro h; exact h90 (by rw [h]; norm_num)
  simp [calculate_diff_pair_geometry, h100', h90']

/-- Witness for C3 at the concrete target 95 Ω. -/
theorem diff_pair_geometry_spec_witness :
    calculate_diff_pair_geometry 100 = (0.2, 0.2) ∧
    calculate_diff_pair_geometry 90 = (0.25, 0.15) ∧
    calculate_diff_pair_geometry 95 =
      (max (0.2 + (100 - 95) * 0.001) 0.1,
       max (0.2 - (100 - 95) * 0.001) 0.1) :=
  diff_pair_geometry_spec 95 (by norm_num) (by norm_num)

/-- C4: the IPC-2221-style power-trace-width computation is monotonically
non-decreasing in the current (for `0 ≤ i1 ≤ i2`), and its result is never
below the constraints' `min_trace_width` (shown at an arbitrary third
current `i3`). -/
theorem power_trace_width_monotone (cons : PCBConstraints) (i1 i2 i3 : ℝ)
    (h0 : 0 ≤ i1) (h12 : i1 ≤ i2) :
    calculate_power_trace_width cons i1 ≤ calculate_power_trace_width cons i2 ∧
    cons.min_trace_width ≤ calculate_power_trace_width cons i3 := by
  constructor
  · simp only [calculate_power_trace_width]
    have hK : (0 : ℝ) < 0.048 * (10.0 : ℝ) ^ (0.44 : ℝ) := by positivity
    refine max_le_max ?_ le_rfl
    refine mul_le_mul_of_nonneg_right ?_ (by norm_num)
    exact Real.rpow_le_rpow (div_nonneg h0 hK.le)
      ((div_le_div_iff_of_pos_right hK).mpr h12) (by norm_num)
  · exact le_max_right _ _

/-- Witness for C4 at the concrete currents 0 ≤ 1 and 5, with the default
constraints. -/
theorem power_trace_width_monotone_witness :
    calculate_power_trace_width {} 0 ≤ calculate_power_trace_width {} 1 ∧
    ({} : PCBConstraints).min_trace_width ≤ calculate_power_trace_width {} 5 :=
  power_trace_width_monotone {} 0 1 5 (by norm_num) (by norm_num)

/-- C5: in the electrical-connectivity check, a net with fewer than two pins
always yields its "insufficient connections" violation, and a net with two or
more pins from distinct components, considered in isolation, yields none. -/
theorem insufficient_connections_violation (d1 d2 : PCBDesign)
    (n1 n2 : RoutingNet) (h1 : n1 ∈ d1.nets) (hlen1 : n1.pins.length < 2)
    (h2 : d2.nets = [n2]) (hlen2 : 2 ≤ n2.pins.length)
    (_hdistinct : (n2.pins.map Prod.fst).Pairwise (fun a b => a ≠ b)) :
    ("Net " ++ n1.name ++ " has insufficient connections") ∈
      (check_electrical_connectivity d1).violations ∧
    (check_electrical_connectivity d2).violations = [] := by
  constructor
  · simp only [check_electrical_connectivity]
    exact List.mem_map_of_mem _ (List.mem_filter.mpr ⟨h1, by simpa using hlen1⟩)
  · simp [check_electrical_connectivity, h2, Nat.not_lt.mpr hlen2]

/-- Witness for C5: a one-pin net `A` produces the violation, a two-pin net
`B` between components `U1` and `R1` produces none. -/
theorem insufficient_connections_violation_witness :
    ("Net " ++ "A" ++ " has insufficient connections") ∈
      (check_electrical_connectivity
        { nets := [{ name := "A", pins := [("U1", "1")] }] }).violations ∧
    (check_electrical_connectivity
      { nets := [{ name := "B",
                   pins := [("U1", "1"), ("R1", "1")] }] }).violations = [] :=
  insufficient_connections_violation
    { nets := [{ name := "A", pins := [("U1", "1")] }] }
    { nets := [{ name := "B", pins := [("U1", "1"), ("R1", "1")] }] }
    { name := "A", pins := [("U1", "1")] }
    { name := "B", pins := [("U1", "1"), ("R1", "1")] }
    (by simp) (by simp) rfl (by simp) (by simp)

/-- Folding the grouping step over components that all share category `t`
only ever extends the single existing `t` group. -/
theorem group_components_fold_all_eq (l : List ComponentPlacement)
    (t : ComponentType) (pre : List ComponentPlacement)
    (hall : ∀ c ∈ l, c.component_type = t) :
    l.foldl (fun groups c =>
      let key := c.component_type.value
      if groups.any (fun g => g.1 == key) then
        groups.map (fun g => if g.1 == key then (g.1, g.2 ++ [c]) else g)
      else groups ++ [(key, [c])]) [(t.value, pre)] = [(t.value, pre ++ l)] := by
  induction l generalizing pre with
  | nil => simp
  | cons c cs ih =>
      have hc : c.component_type = t := hall c (by simp)
      have ih' := ih (pre ++ [c]) (fun x hx => hall x (by simp [hx]))
      simp only [List.foldl_cons, hc, List.any_cons, List.any_nil,
        beq_self_eq_true, Bool.or_false, if_true, List.map_cons, List.map_nil]
      simpa using ih'

/-- When every component has category `t`, grouping produces the single group
`(t.value, all components)`. -/
theorem group_components_all_eq (comps : List ComponentPlacement)
    (t : ComponentType) (hne : comps ≠ [])
    (hall : ∀ c ∈ comps, c.component_type = t) :
    group_components comps = [(t.value, comps)] := by
  cases comps with
  | nil => exact absurd rfl hne
  | cons c cs =>
      have hc : c.component_type = t := hall c (by simp)
      simp only [group_components, List.foldl_cons, hc, List.any_nil,
        if_false, List.nil_append]
      exact group_components_fold_all_eq cs t [c]
        (fun x hx => hall x (by simp [hx]))

/-- C9: the BOM total cost is the sum over line items of
`unit_cost × quantity`, and components grouped by category only: a non-empty
list of same-category components yields exactly one line item whose quantity
is the component count. -/
theorem bom_total_and_grouping (comps1 comps2 : List ComponentPlacement)
    (t : ComponentType) (hne : comps2 ≠ [])
    (hall : ∀ c ∈ comps2, c.component_type = t) :
    (generate_optimized_bom comps1).total_cost =
      (((generate_optimized_bom comps1).components).map
        (fun e => e.unit_cost * (e.quantity : ℝ))).sum ∧
    ((generate_optimized_bom comps2).components).map (fun e => e.quantity) =
      [comps2.length] := by
  constructor
  · simp only [generate_optimized_bom, List.map_map]
    rfl
  · rw [show (generate_optimized_bom comps2).components =
        (group_components comps2).map mk_bom_entry from rfl,
      group_components_all_eq comps2 t hne hall]
    rfl

/-- Witness for C9: two resistors with different references form one BOM line
of quantity 2, and the total equals the line-item sum. -/
theorem bom_total_and_grouping_witness :
    (generate_optimized_bom
      [{ reference := "R1", x := 0, y := 0, rotation := 0, layer := "F.Cu",
         component_type := .resistor },
       { reference := "R2", x := 0, y := 0, rotation := 0, layer := "F.Cu",
         component_type := .resistor }]).total_cost =
      (((generate_optimized_bom
        [{ reference := "R1", x := 0, y := 0, rotation := 0, layer := "F.Cu",
           component_type := .resistor },
         { reference := "R2", x := 0, y := 0, rotation := 0, layer := "F.Cu",
           component_type := .resistor }]).components).map
        (fun e => e.unit_cost * (e.quantity : ℝ))).sum ∧
    ((generate_optimized_bom
      [{ reference := "R1", x := 0, y := 0, rotation := 0, layer := "F.Cu",
         component_type := .resistor },
       { reference := "R2", x := 0, y := 0, rotation := 0, layer := "F.Cu",
         component_type := .resistor }]).components).map
      (fun e => e.quantity) = [2] :=
  bom_total_and_grouping _ _ ComponentType.resistor (by simp)
    (by intro c hc
        rcases List.mem_cons.mp hc with rfl | hc2
        · rfl
        · rcases List.mem_cons.mp hc2 with rfl | h
          · rfl
          · simp at h)

/-- A point lying on the board `[0, board_width] × [0, board_height]`. -/
def point_in_board (constraints : PCBConstraints) (p : ℝ × ℝ) : Prop :=
  0 ≤ p.1 ∧ p.1 ≤ constraints.board_width ∧
  0 ≤ p.2 ∧ p.2 ≤ constraints.board_height

/-- The thermal attempt loop returns either the fallback `(20, 20)` or an
accepted (valid) draw. -/
theorem find_thermal_go_cases (draws : ℕ → ℝ × ℝ)
    (existing : List ComponentPlacement) (m : ℝ) (fuel : ℕ) :
    find_thermal_go draws existing m fuel = (20.0, 20.0) ∨
    ∃ n, find_thermal_go draws existing m fuel = draws n ∧
      thermal_valid existing m (draws n) = true := by
  induction fuel with
  | zero => exact Or.inl rfl
  | succ k ih =>
      simp only [find_thermal_go]
      by_cases h : thermal_valid existing m (draws (100 - Nat.succ k)) = true
      · rw [if_pos h]
        exact Or.inr ⟨_, rfl, h⟩
      · rw [if_neg h]
        exact ih

/-- Values of `np.arange(start, stop, step)` (positive step) lie in
`[start, stop)`. -/
theorem arange_mem_bounds (start stop step x : ℝ) (hstep : 0 < step)
    (hx : x ∈ arange start stop step) : start ≤ x ∧ x < stop := by
  rw [arange] at hx
  rcases List.mem_map.mp hx with ⟨i, hi, rfl⟩
  rw [List.mem_range] at hi
  have hnn : (0 : ℝ) ≤ (i : ℝ) * step :=
    mul_nonneg (Nat.cast_nonneg i) hstep.le
  have hi' : (i : ℝ) < (stop - start) / step := Nat.lt_ceil.mp hi
  have hlt := (lt_div_iff₀ hstep).mp hi'
  constructor <;> linarith

/-- Grid candidates of `_find_available_position` lie strictly inside the
10 mm board margin. -/
theorem grid_candidates_bounds (constraints : PCBConstraints) (p : ℝ × ℝ)
    (hp : p ∈ grid_candidates constraints) :
    10 ≤ p.1 ∧ p.1 < constraints.board_width - 10 ∧
    10 ≤ p.2 ∧ p.2 < constraints.board_height - 10 := by
  simp only [grid_candidates, List.mem_flatMap, List.mem_map] at hp
  obtain ⟨y, hy, x, hx, rfl⟩ := hp
  have h1 := arange_mem_bounds _ _ _ _ (by norm_num) hx
  have h2 := arange_mem_bounds _ _ _ _ (by norm_num) hy
  exact ⟨h1.1, h1.2, h2.1, h2.2⟩

/-- On a board at least 20 mm in each dimension, `_find_available_position`
stays on the board (its grid hits the margin interior, its fallback is
`(10, 10)`). -/
theorem find_available_position_in_board (constraints : PCBConstraints)
    (existing : List ComponentPlacement)
    (hW : 20 ≤ constraints.board_width) (hH : 20 ≤ constraints.board_height) :
    point_in_board constraints (find_available_position constraints existing) := by
  unfold find_available_position
  cases hfind : (grid_candidates constraints).find? (position_available existing) with
  | none =>
      refine ⟨by norm_num, by linarith, by norm_num, by linarith⟩
  | some q =>
      have hb := grid_candidates_bounds constraints q
        (List.mem_of_find?_eq_some hfind)
      exact ⟨by linarith [hb.1], by linarith [hb.2.1],
        by linarith [hb.2.2.1], by linarith [hb.2.2.2]⟩

/-- On a board at least 20 mm in each dimension, with draws inside the
sampling margins, `_find_thermal_position` stays on the board. -/
theorem find_thermal_position_in_board (draws : ℕ → ℝ × ℝ)
    (existing : List ComponentPlacement) (m : ℝ)
    (constraints : PCBConstraints)
    (hW : 20 ≤ constraints.board_width) (hH : 20 ≤ constraints.board_height)
    (hdraws : ∀ n, 10 ≤ (draws n).1 ∧
      (draws n).1 ≤ constraints.board_width - 10 ∧
      10 ≤ (draws n).2 ∧ (draws n).2 ≤ constraints.board_height - 10) :
    point_in_board constraints (find_thermal_position draws existing m) := by
  rcases find_thermal_go_cases draws existing m 100 with h | ⟨n, h, _⟩ <;>
    rw [find_thermal_position, h]
  · exact ⟨by norm_num, by linarith, by norm_num, by linarith⟩
  · obtain ⟨h1, h2, h3, h4⟩ := hdraws n
    exact ⟨by linarith, by linarith, by linarith, by linarith⟩

/-- The high-power placement loop appends exactly one placed component per
pending component. -/
theorem place_high_power_length (constraints : PCBConstraints)
    (draws : ℕ → ℝ × ℝ) (placed pending : List ComponentPlacement) :
    (place_high_power constraints draws placed pending).length =
      placed.length + pending.length := by
  induction pending generalizing draws placed with
  | nil => simp [place_high_power]
  | cons c rest ih =>
      rw [place_high_power, ih]
      simp
      omega

/-- The high-power placement loop keeps every component on a board at least
20 mm in each dimension, provided the draws respect the sampling margins. -/
theorem place_high_power_in_board (constraints : PCBConstraints)
    (draws : ℕ → ℝ × ℝ) (placed pending : List ComponentPlacement)
    (hW : 20 ≤ constraints.board_width) (hH : 20 ≤ constraints.board_height)
    (hdraws : ∀ n, 10 ≤ (draws n).1 ∧
      (draws n).1 ≤ constraints.board_width - 10 ∧
      10 ≤ (draws n).2 ∧ (draws n).2 ≤ constraints.board_height - 10)
    (hplaced : ∀ c ∈ placed, point_in_board constraints (c.x, c.y)) :
    ∀ c ∈ place_high_power constraints draws placed pending,
      point_in_board constraints (c.x, c.y) := by
  induction pending generalizing draws placed with
  | nil => simpa [place_high_power] using hplaced
  | cons c rest ih =>
      simp only [place_high_power]
      refine ih _ _ (fun n => hdraws (n + 100)) ?_
      intro d hd
      rcases List.mem_append.mp hd with h | h
      · exact hplaced d h
      · have hd' : d = { c with
            x := (if placed.isEmpty then
              (constraints.board_width / 2, constraints.board_height / 2)
              else find_thermal_position draws placed
                (10.0 + c.thermal_power * 5.0)).1
            y := (if placed.isEmpty then
              (constraints.board_width / 2, constraints.board_height / 2)
              else find_thermal_position draws placed
                (10.0 + c.thermal_power * 5.0)).2 } := by
          simpa using h
        subst hd'
        by_cases hemp : placed.isEmpty
        · simp only [hemp, if_true]
          exact ⟨by linarith, by linarith, by linarith, by linarith⟩
        · simp only [hemp, if_false]
          exact find_thermal_position_in_board draws placed _
            constraints hW hH hdraws

/-- The low-power placement loop appends exactly one placed component per
pending component. -/
theorem place_low_power_length (constraints : PCBConstraints)
    (placed pending : List ComponentPlacement) :
    (place_low_power constraints placed pending).length =
      placed.length + pending.length := by
  induction pending generalizing placed with
  | nil => simp [place_low_power]
  | cons c rest ih =>
      rw [place_low_power, ih]
      simp
      omega

/-- The low-power placement loop keeps every component on a board at least
20 mm in each dimension. -/
theorem place_low_power_in_board (constraints : PCBConstraints)
    (placed pending : List ComponentPlacement)
    (hW : 20 ≤ constraints.board_width) (hH : 20 ≤ constraints.board_height)
    (hplaced : ∀ c ∈ placed, point_in_board constraints (c.x, c.y)) :
    ∀ c ∈ place_low_power constraints placed pending,
      point_in_board constraints (c.x, c.y) := by
  induction pending generalizing placed with
  | nil => simpa [place_low_power] using hplaced
  | cons c rest ih =>
      simp only [place_low_power]
      refine ih _ ?_
      intro d hd
      rcases List.mem_append.mp hd with h | h
      · exact hplaced d h
      · have hd' : d = { c with
            x := (find_available_position constraints placed).1
            y := (find_available_position constraints placed).2 } := by
          simpa using h
        subst hd'
        exact find_available_position_in_board constraints placed hW hH

/-- `thermal_aware_placement` returns exactly one placed component per input
component. -/
theorem thermal_aware_placement_length (constraints : PCBConstraints)
    (draws : ℕ → ℝ × ℝ) (components : List ComponentPlacement) :
    (thermal_aware_placement constraints draws components).length =
      components.length := by
  rw [thermal_aware_placement]
  rw [place_low_power_length, place_high_power_length]
  simp only [List.length_nil, Nat.zero_add]
  have : ∀ l : List ComponentPlacement,
      (l.filter (fun c => decide (0.5 < c.thermal_power))).length +
      (l.filter (fun c => decide (c.thermal_power ≤ 0.5))).length = l.length := by
    intro l
    induction l with
    | nil => rfl
    | cons c cs ihl =>
        by_cases h : (0.5 : ℝ) < c.thermal_power
        · have h1 : decide ((0.5 : ℝ) < c.thermal_power) = true := decide_eq_true h
          have h2 : decide (c.thermal_power ≤ (0.5 : ℝ)) = false :=
            decide_eq_false (not_le.mpr h)
          rw [List.filter_cons, List.filter_cons, h1, h2]
          simp only [if_pos rfl, Bool.false_eq_true, if_neg (fun hff => hff),
            if_true, List.length_cons]
          omega
        · have h1 : decide ((0.5 : ℝ) < c.thermal_power) = false :=
            decide_eq_false h
          have h2 : decide (c.thermal_power ≤ (0.5 : ℝ)) = true :=
            decide_eq_true (not_lt.mp h)
          rw [List.filter_cons, List.filter_cons, h1, h2]
          simp only [if_pos rfl, Bool.false_eq_true, if_neg (fun hff => hff),
            if_true, List.length_cons]
          omega
  exact this components

/-- `thermal_aware_placement` keeps every component on a board at least
20 mm in each dimension, provided draws respect the sampling margins. -/
theorem thermal_aware_placement_in_board (constraints : PCBConstraints)
    (draws : ℕ → ℝ × ℝ) (components : List ComponentPlacement)
    (hW : 20 ≤ constraints.board_width) (hH : 20 ≤ constraints.board_height)
    (hdraws : ∀ n, 10 ≤ (draws n).1 ∧
      (draws n).1 ≤ constraints.board_width - 10 ∧
      10 ≤ (draws n).2 ∧ (draws n).2 ≤ constraints.board_height - 10) :
    ∀ c ∈ thermal_aware_placement constraints draws components,
      point_in_board constraints (c.x, c.y) := by
  rw [thermal_aware_placement]
  exact place_low_power_in_board constraints _ _ hW hH
    (place_high_power_in_board constraints draws [] _ hW hH hdraws
      (by intro c hc; simp at hc))

/-- `signal_integrity_placement` preserves the number of components. -/
theorem signal_integrity_placement_length (constraints : PCBConstraints)
    (components : List ComponentPlacement) (critical_nets : List RoutingNet) :
    (signal_integrity_placement constraints components critical_nets).length =
      components.length := by
  simp [signal_integrity_placement, List.enum_length]

/-- On a board at least 30 mm in each dimension,
`signal_integrity_placement` keeps every component on the board: untouched
components keep their (in-board) positions and critical ones land on the
15 mm circle around the center. -/
theorem signal_integrity_placement_in_board (constraints : PCBConstraints)
    (components : List ComponentPlacement) (critical_nets : List RoutingNet)
    (hW : 30 ≤ constraints.board_width) (hH : 30 ≤ constraints.board_height)
    (hcomps : ∀ c ∈ components, point_in_board constraints (c.x, c.y)) :
    ∀ c ∈ signal_integrity_placement constraints components critical_nets,
      point_in_board constraints (c.x, c.y) := by
  intro c hc
  simp only [signal_integrity_placement, List.mem_map] at hc
  obtain ⟨jc, hjc, rfl⟩ := hc
  have hmem : jc.2 ∈ components :=
    List.getElem?_mem (List.mem_enum_iff_getElem?.mp hjc)
  set crit := critical_indices components critical_nets with hcrit
  by_cases h : crit.indexOf jc.1 < crit.length
  · rw [if_pos h]
    have hcos1 := Real.neg_one_le_cos
      (2 * Real.pi * (crit.indexOf jc.1) / crit.length)
    have hcos2 := Real.cos_le_one
      (2 * Real.pi * (crit.indexOf jc.1) / crit.length)
    have hsin1 := Real.neg_one_le_sin
      (2 * Real.pi * (crit.indexOf jc.1) / crit.length)
    have hsin2 := Real.sin_le_one
      (2 * Real.pi * (crit.indexOf jc.1) / crit.length)
    refine ⟨?_, ?_, ?_, ?_⟩ <;> · simp only; nlinarith
  · rw [if_neg h]
    exact hcomps _ hmem

/-- C6, amended: on a board at least 30 mm in each dimension and with draws
inside the sampling margins, thermal-aware placement followed by
signal-integrity placement assigns coordinates to exactly `N` components and
every assigned position lies within `[0, board_width] × [0, board_height]`.
(The bound on the component `c` holds for every member of the result.) -/
theorem placement_count_and_bounds (constraints : PCBConstraints)
    (draws : ℕ → ℝ × ℝ) (components : List ComponentPlacement)
    (critical_nets : List RoutingNet) (c : ComponentPlacement)
    (hW : 30 ≤ constraints.board_width) (hH : 30 ≤ constraints.board_height)
    (hdraws : ∀ n, 10 ≤ (draws n).1 ∧
      (draws n).1 ≤ constraints.board_width - 10 ∧
      10 ≤ (draws n).2 ∧ (draws n).2 ≤ constraints.board_height - 10)
    (hc : c ∈ signal_integrity_placement constraints
      (thermal_aware_placement constraints draws components) critical_nets) :
    (signal_integrity_placement constraints
        (thermal_aware_placement constraints draws components)
        critical_nets).length = components.length ∧
    0 ≤ c.x ∧ c.x ≤ constraints.board_width ∧
    0 ≤ c.y ∧ c.y ≤ constraints.board_height := by
  have hlen : (signal_integrity_placement constraints
      (thermal_aware_placement constraints draws components)
      critical_nets).length = components.length := by
    rw [signal_integrity_placement_length, thermal_aware_placement_length]
  have hbound := signal_integrity_placement_in_board constraints
    (thermal_aware_placement constraints draws components) critical_nets
    hW hH
    (thermal_aware_placement_in_board constraints draws components
      (by linarith) (by linarith) hdraws) c hc
  exact ⟨hlen, hbound.1, hbound.2.1, hbound.2.2.1, hbound.2.2.2⟩

/-- A 5 mm × 5 mm board (all other constraints at their defaults). -/
noncomputable def tiny_board : PCBConstraints :=
  { board_width := 5, board_height := 5 }

/-- A low-power LED component before placement. -/
noncomputable def tiny_component : ComponentPlacement :=
  { reference := "D1", x := 0, y := 0, rotation := 0, layer := "F.Cu",
    component_type := .led, thermal_power := 0.1 }

/-- On the 5×5 board the grid of `_find_available_position` is empty
(`np.arange(10, -5, 2.54)` is empty), so the fallback `(10, 10)` is used. -/
theorem tiny_board_find_available :
    find_available_position tiny_board [] = (10.0, 10.0) := by
  rw [find_available_position]
  have hgrid : grid_candidates tiny_board = [] := by
    rw [grid_candidates, arange]
    have hc : ⌈(tiny_board.board_height - 10 - 10) / 2.54⌉₊ = 0 := by
      rw [Nat.ceil_eq_zero]
      have hbh : tiny_board.board_height = (5 : ℝ) := rfl
      rw [hbh]
      norm_num
    rw [hc]
    rfl
  rw [hgrid]
  rfl

/-- The low-power component as placed on the 5×5 board: at the fallback
position `(10, 10)`. -/
noncomputable def tiny_placed : ComponentPlacement :=
  { tiny_component with
      x := 10.0,
      y := 10.0 }

/-- Placing the single low-power component on the 5×5 board lands it on the
fallback position `(10, 10)`. -/
theorem tiny_board_thermal_placement :
    thermal_aware_placement tiny_board (fun _ => (0, 0)) [tiny_component] =
      [tiny_placed] := by
  rw [thermal_aware_placement]
  rw [List.filter_cons, List.filter_cons]
  rw [decide_eq_false
    (show ¬ ((0.5 : ℝ) < tiny_component.thermal_power) by
      show ¬ ((0.5 : ℝ) < 0.1); norm_num)]
  rw [decide_eq_true
    (show tiny_component.thermal_power ≤ (0.5 : ℝ) by
      show (0.1 : ℝ) ≤ 0.5; norm_num)]
  rw [if_neg Bool.false_ne_true, if_pos rfl]
  show place_low_power tiny_board
    (place_high_power tiny_board (fun _ => (0, 0)) [] [])
    [tiny_component] = _
  rw [show place_high_power tiny_board (fun _ => (0, 0)) [] [] =
    ([] : List ComponentPlacement) from rfl]
  rw [place_low_power, tiny_board_find_available]
  rfl

/-- C6 counterexample: on a 5 mm × 5 mm board a single low-power component
is assigned the fallback position `(10, 10)`, which is outside
`[0, board_width] × [0, board_height] = [0, 5] × [0, 5]`; so the claim fails
without a lower bound on the board size. -/
theorem placement_bounds_counterexample :
    (signal_integrity_placement tiny_board
        (thermal_aware_placement tiny_board (fun _ => (0, 0)) [tiny_component])
        []).map (fun c => (c.x, c.y)) = [((10.0 : ℝ), (10.0 : ℝ))] ∧
    ¬ ((10.0 : ℝ) ≤ tiny_board.board_width) := by
  constructor
  · rw [tiny_board_thermal_placement]
    rfl
  · show ¬ ((10.0 : ℝ) ≤ 5)
    norm_num

/-- A 30 mm × 30 mm board (all other constraints at their defaults). -/
noncomputable def board30 : PCBConstraints :=
  { board_width := 30, board_height := 30 }

/-- A high-power microcontroller component before placement. -/
noncomputable def hot_component : ComponentPlacement :=
  { reference := "U1", x := 0, y := 0, rotation := 0, layer := "F.Cu",
    component_type := .microcontroller, thermal_power := 2.0 }

/-- The high-power component as placed on the 30×30 board: at the board
center. -/
noncomputable def hot_placed : ComponentPlacement :=
  { hot_component with
      x := board30.board_width / 2,
      y := board30.board_height / 2 }

/-- On the 30×30 board the single high-power component goes to the board
center. -/
theorem board30_thermal_placement :
    thermal_aware_placement board30 (fun _ => (15, 15)) [hot_component] =
      [hot_placed] := by
  rw [thermal_aware_placement]
  rw [List.filter_cons, List.filter_cons]
  rw [decide_eq_true
    (show (0.5 : ℝ) < hot_component.thermal_power by
      show (0.5 : ℝ) < 2.0; norm_num)]
  rw [decide_eq_false
    (show ¬ (hot_component.thermal_power ≤ (0.5 : ℝ)) by
      show ¬ ((2.0 : ℝ) ≤ 0.5); norm_num)]
  rw [if_pos rfl, if_neg Bool.false_ne_true]
  rfl

/-- Witness for C6 at a concrete input: one high-power component on the
30×30 board with constant draws `(15, 15)` is placed at the center, inside
the board. -/
theorem placement_count_and_bounds_witness :
    (signal_integrity_placement board30
        (thermal_aware_placement board30 (fun _ => (15, 15)) [hot_component])
        []).length = ([hot_component] : List ComponentPlacement).length ∧
    0 ≤ hot_placed.x ∧ hot_placed.x ≤ board30.board_width ∧
    0 ≤ hot_placed.y ∧ hot_placed.y ≤ board30.board_height :=
  placement_count_and_bounds board30 (fun _ => (15, 15)) [hot_component] []
    hot_placed
    (by show (30 : ℝ) ≤ 30; norm_num)
    (by show (30 : ℝ) ≤ 30; norm_num)
    (by intro n
        refine ⟨by norm_num, ?_, by norm_num, ?_⟩ <;>
          · show (15 : ℝ) ≤ 30 - 10; norm_num)
    (by rw [board30_thermal_placement]
        rw [show signal_integrity_placement board30 [hot_placed] [] =
          [hot_placed] from rfl]
        exact List.mem_singleton.mpr rfl)

/-- When the first draw already satisfies the spacing requirement,
`_find_thermal_position` returns it. -/
theorem find_thermal_position_first_valid (draws : ℕ → ℝ × ℝ)
    (existing : List ComponentPlacement) (m : ℝ)
    (h : thermal_valid existing m (draws 0) = true) :
    find_thermal_position draws existing m = draws 0 := by
  rw [find_thermal_position, show (100 : ℕ) = Nat.succ 99 from rfl,
    find_thermal_go]
  exact if_pos h

/-- C7, amended: (a) whenever `_find_thermal_position` returns an accepted
draw (not the fallback `(20, 20)`), the new position is at least
`10 + 5 × (the placed component's own power)` — the `min_distance` argument —
away from every previously placed component (not `10 + 5 × max` of the two
powers); and (b) on a board with fewer than 4 layers, the DRC thermal check
warns about a high-power pair exactly when their separation is below
`5 + 2 × (p1 + p2)` — a threshold unrelated to the placement minimum. -/
theorem thermal_spacing_amended (draws : ℕ → ℝ × ℝ)
    (existing : List ComponentPlacement) (m : ℝ) (c : ComponentPlacement)
    (d : PCBDesign) (c1 c2 : ComponentPlacement)
    (hmem : c ∈ existing)
    (haccept : find_thermal_position draws existing m ≠ (20.0, 20.0))
    (hd : d.components = [c1, c2])
    (h1 : 0.5 < c1.thermal_power) (h2 : 0.5 < c2.thermal_power)
    (hlayer : d.constraints.layer_count < 4) :
    m ≤ dist2 (find_thermal_position draws existing m) (c.x, c.y) ∧
    ((check_thermal_management d).warnings ≠ [] ↔
      dist2 (c1.x, c1.y) (c2.x, c2.y) <
        5.0 + (c1.thermal_power + c2.thermal_power) * 2.0) := by
  constructor
  · rcases find_thermal_go_cases draws existing m 100 with hcase | ⟨n, heq, hval⟩
    · exact absurd (by rw [find_thermal_position]; exact hcase) haccept
    · rw [thermal_valid] at hval
      have hc := List.all_eq_true.mp hval c hmem
      rw [Bool.not_eq_true'] at hc
      have hnot := of_decide_eq_false hc
      rw [find_thermal_position, heq]
      exact not_lt.mp hnot
  · have hhigh : d.components.filter (fun c => decide (0.5 < c.thermal_power)) =
        [c1, c2] := by
      rw [hd, List.filter_cons, List.filter_cons, decide_eq_true h1,
        decide_eq_true h2, if_pos rfl, if_pos rfl]
      rfl
    simp only [check_thermal_management, hhigh]
    rw [if_neg (fun hand => absurd hand.2 (not_le.mpr hlayer)),
      List.append_nil]
    have hpairs : ordered_pairs [c1, c2] = [(c1, c2)] := rfl
    rw [hpairs]
    by_cases hlt : dist2 (c1.x, c1.y) (c2.x, c2.y) <
        5.0 + (c1.thermal_power + c2.thermal_power) * 2.0
    · rw [List.filter_cons, decide_eq_true hlt, if_pos rfl]
      exact iff_of_true (by simp) hlt
    · rw [List.filter_cons, decide_eq_false hlt, if_neg Bool.false_ne_true]
      exact iff_of_false (by simp) hlt

/-- The default `PCBConstraints` (a 100 mm × 80 mm two-layer board). -/
noncomputable def stock_board : PCBConstraints := {}

/-- A draw stream that always proposes the point `(50, 55)`. -/
noncomputable def const_draws : ℕ → ℝ × ℝ := fun _ => ((50 : ℝ), (55 : ℝ))

/-- A 2 W microcontroller before placement. -/
noncomputable def hot1 : ComponentPlacement :=
  { reference := "U1", x := 0, y := 0, rotation := 0, layer := "F.Cu",
    component_type := .microcontroller, thermal_power := 2.0 }

/-- A 0.6 W component before placement. -/
noncomputable def warm2 : ComponentPlacement :=
  { reference := "U2", x := 0, y := 0, rotation := 0, layer := "F.Cu",
    component_type := .microcontroller, thermal_power := 0.6 }

/-- `hot1` as placed: at the center of the default board. -/
noncomputable def hot1_placed : ComponentPlacement :=
  { hot1 with
      x := stock_board.board_width / 2,
      y := stock_board.board_height / 2 }

/-- `warm2` as placed: at the accepted first draw `(50, 55)`. -/
noncomputable def warm2_placed : ComponentPlacement :=
  { warm2 with
      x := ((50 : ℝ), (55 : ℝ)).1,
      y := ((50 : ℝ), (55 : ℝ)).2 }

/-- The distance from the first draw `(50, 55)` to the placed `hot1` is 15. -/
theorem dist_draw_hot1 :
    dist2 ((50 : ℝ), (55 : ℝ)) (hot1_placed.x, hot1_placed.y) = 15 := by
  rw [dist2]
  have harg : ((50 : ℝ) - hot1_placed.x) ^ 2 + ((55 : ℝ) - hot1_placed.y) ^ 2 =
      225 := by
    have hx : hot1_placed.x = (100.0 : ℝ) / 2 := rfl
    have hy : hot1_placed.y = (80.0 : ℝ) / 2 := rfl
    rw [hx, hy]
    norm_num
  rw [harg, show (225 : ℝ) = 15 ^ 2 by norm_num,
    Real.sqrt_sq (by norm_num : (0 : ℝ) ≤ 15)]

/-- The first draw `(50, 55)` is accepted for `warm2` (separation 15 ≥ 13
from the placed `hot1`). -/
theorem warm2_first_draw_valid :
    thermal_valid [hot1_placed] (10.0 + warm2.thermal_power * 5.0)
      (const_draws 0) = true := by
  rw [thermal_valid, List.all_cons, List.all_nil, Bool.and_true]
  have hnot : ¬ (dist2 (const_draws 0) (hot1_placed.x, hot1_placed.y) <
      10.0 + warm2.thermal_power * 5.0) := by
    rw [show const_draws 0 = ((50 : ℝ), (55 : ℝ)) from rfl, dist_draw_hot1]
    have hp : warm2.thermal_power = (0.6 : ℝ) := rfl
    rw [hp]
    norm_num
  rw [decide_eq_false hnot, Bool.not_false]

/-- Placing `hot1` then `warm2` with the constant draw stream puts `hot1` at
the center and `warm2` at `(50, 55)` (accepted on the first attempt). -/
theorem two_hot_placement :
    thermal_aware_placement stock_board const_draws [hot1, warm2] =
      [hot1_placed, warm2_placed] := by
  rw [thermal_aware_placement]
  have hhigh : List.filter (fun c => decide (0.5 < c.thermal_power))
      [hot1, warm2] = [hot1, warm2] := by
    rw [List.filter_cons, decide_eq_true
        (show (0.5 : ℝ) < hot1.thermal_power from by
          rw [show hot1.thermal_power = (2.0 : ℝ) from rfl]; norm_num),
      if_pos rfl, List.filter_cons, decide_eq_true
        (show (0.5 : ℝ) < warm2.thermal_power from by
          rw [show warm2.thermal_power = (0.6 : ℝ) from rfl]; norm_num),
      if_pos rfl]
    rfl
  have hlow : List.filter (fun c => decide (c.thermal_power ≤ 0.5))
      [hot1, warm2] = [] := by
    rw [List.filter_cons, decide_eq_false
        (show ¬ (hot1.thermal_power ≤ (0.5 : ℝ)) from by
          rw [show hot1.thermal_power = (2.0 : ℝ) from rfl]; norm_num),
      if_neg Bool.false_ne_true, List.filter_cons, decide_eq_false
        (show ¬ (warm2.thermal_power ≤ (0.5 : ℝ)) from by
          rw [show warm2.thermal_power = (0.6 : ℝ) from rfl]; norm_num),
      if_neg Bool.false_ne_true]
    rfl
  rw [hhigh, hlow]
  show place_low_power stock_board
    (place_high_power stock_board const_draws [] [hot1, warm2]) [] = _
  rw [show place_high_power stock_board const_draws [] [hot1, warm2] =
      place_high_power stock_board (fun n => const_draws (n + 100))
        [hot1_placed] [warm2] from rfl]
  rw [place_high_power]
  rw [if_neg (by rw [List.isEmpty_cons]; exact Bool.false_ne_true)]
  rw [find_thermal_position_first_valid (fun n => const_draws (n + 100))
    [hot1_placed] (10.0 + warm2.thermal_power * 5.0) warm2_first_draw_valid]
  rfl

/-- C7 counterexample: both components exceed 0.5 W, `warm2`'s first random
attempt succeeds, yet the final separation is 15 mm, which is below
`10 + 5 × max(2.0, 0.6) = 20` mm — the code only enforces
`10 + 5 × (the placed component's power) = 13` mm. -/
theorem thermal_spacing_counterexample :
    (0.5 : ℝ) < hot1.thermal_power ∧ (0.5 : ℝ) < warm2.thermal_power ∧
    thermal_aware_placement stock_board const_draws [hot1, warm2] =
      [hot1_placed, warm2_placed] ∧
    thermal_valid [hot1_placed] (10.0 + warm2.thermal_power * 5.0)
      (const_draws 0) = true ∧
    dist2 (warm2_placed.x, warm2_placed.y) (hot1_placed.x, hot1_placed.y) <
      10.0 + 5.0 * max hot1.thermal_power warm2.thermal_power := by
  refine ⟨by rw [show hot1.thermal_power = (2.0 : ℝ) from rfl]; norm_num,
    by rw [show warm2.thermal_power = (0.6 : ℝ) from rfl]; norm_num,
    two_hot_placement, warm2_first_draw_valid, ?_⟩
  rw [show (warm2_placed.x, warm2_placed.y) = ((50 : ℝ), (55 : ℝ)) from rfl,
    dist_draw_hot1,
    show hot1.thermal_power = (2.0 : ℝ) from rfl,
    show warm2.thermal_power = (0.6 : ℝ) from rfl]
  rw [show max (2.0 : ℝ) 0.6 = 2.0 from max_eq_left (by norm_num)]
  norm_num

/-- The placed two-component design on the default two-layer board. -/
noncomputable def two_hot_design : PCBDesign :=
  { components := [hot1_placed, warm2_placed]
    nets := []
    constraints := stock_board
    board_outline := [] }

/-- Witness for C7 at a concrete input: applying the amended statement to the
accepted first draw of `warm2` and to a two-component design on the default
two-layer board. -/
theorem thermal_spacing_amended_witness :
    10.0 + warm2.thermal_power * 5.0 ≤
      dist2 (find_thermal_position (fun n => const_draws (n + 100))
          [hot1_placed] (10.0 + warm2.thermal_power * 5.0))
        (hot1_placed.x, hot1_placed.y) ∧
    ((check_thermal_management two_hot_design).warnings ≠ [] ↔
      dist2 (hot1_placed.x, hot1_placed.y) (warm2_placed.x, warm2_placed.y) <
        5.0 + (hot1_placed.thermal_power + warm2_placed.thermal_power) * 2.0) :=
  thermal_spacing_amended (fun n => const_draws (n + 100)) [hot1_placed]
    (10.0 + warm2.thermal_power * 5.0) hot1_placed two_hot_design
    hot1_placed warm2_placed
    (List.mem_singleton.mpr rfl)
    (by rw [find_thermal_position_first_valid (fun n => const_draws (n + 100))
          [hot1_placed] (10.0 + warm2.thermal_power * 5.0)
          warm2_first_draw_valid]
        intro hpair
        have h50 : ((50 : ℝ), (55 : ℝ)) = ((20.0 : ℝ), (20.0 : ℝ)) := hpair
        have h50x := congrArg Prod.fst h50
        norm_num at h50x)
    rfl
    (by rw [show hot1_placed.thermal_power = (2.0 : ℝ) from rfl]; norm_num)
    (by rw [show warm2_placed.thermal_power = (0.6 : ℝ) from rfl]; norm_num)
    (by rw [show two_hot_design.constraints.layer_count = (2 : ℝ) from rfl]
        norm_num)

/-- Peeling one `Except` bind: a successful bind means a successful first
stage whose value the continuation maps to the final result. -/
theorem except_bind_ok {α β : Type} (x : Except String α)
    (f : α → Except String β) (b : β) (h : (x >>= f) = .ok b) :
    ∃ a, x = .ok a ∧ f a = .ok b := by
  cases x with
  | error e => exact Except.noConfusion h
  | ok a => exact ⟨a, rfl, h⟩

/-- `add_connection` never sets the differential-pair flag: new nets carry
the default `false` and `add_pins` only touches the pin list. -/
theorem add_connection_not_diff (nets : List RoutingNet)
    (conn : List (String × PyVal)) (nets2 : List RoutingNet)
    (h : add_connection nets conn = .ok nets2)
    (hall : ∀ n ∈ nets, n.differential_pair = false) :
    ∀ n ∈ nets2, n.differential_pair = false := by
  rw [add_connection] at h
  obtain ⟨net_name, h1, h⟩ := except_bind_ok _ _ _ h
  obtain ⟨from_ref, h2, h⟩ := except_bind_ok _ _ _ h
  obtain ⟨from_pin, h3, h⟩ := except_bind_ok _ _ _ h
  obtain ⟨to_ref, h4, h⟩ := except_bind_ok _ _ _ h
  obtain ⟨to_pin, h5, h⟩ := except_bind_ok _ _ _ h
  injection h with h
  subst h
  intro n hn
  rcases List.mem_map.mp hn with ⟨n0, hn0, rfl⟩
  have hdp0 : n0.differential_pair = false := by
    by_cases hany : (nets.any fun n => n.name == net_name) = true
    · rw [if_pos hany] at hn0
      exact hall n0 hn0
    · rw [if_neg hany] at hn0
      rcases List.mem_append.mp hn0 with hmem | hmem
      · exact hall n0 hmem
      · rw [List.mem_singleton.mp hmem]
  by_cases hname : (n0.name == net_name) = true
  · rw [if_pos hname]
    exact hdp0
  · rw [if_neg hname]
    exact hdp0

/-- The connection-parsing loop never sets the differential-pair flag. -/
theorem parse_connections_not_diff (conns : List PyVal)
    (nets nets2 : List RoutingNet)
    (hall : ∀ n ∈ nets, n.differential_pair = false)
    (h : parse_connections conns nets = .ok nets2) :
    ∀ n ∈ nets2, n.differential_pair = false := by
  induction conns generalizing nets with
  | nil =>
      rw [parse_connections] at h
      injection h with h
      subst h
      exact hall
  | cons v rest ih =>
      cases v with
      | dict conn =>
          rw [parse_connections] at h
          obtain ⟨nets1, hadd, h⟩ := except_bind_ok _ _ _ h
          exact ih nets1 (add_connection_not_diff nets conn nets1 hadd hall) h
      | lst l => exact Except.noConfusion h
      | str s => exact Except.noConfusion h
      | num x => exact Except.noConfusion h
      | null => exact Except.noConfusion h

/-- Every net built by `_parse_circuit_data` has `differential_pair = false`
(no input field can set the flag). -/
theorem parse_circuit_data_not_diff (entries : List (String × PyVal))
    (design : PCBDesign) (h : parse_circuit_data entries = .ok design) :
    ∀ n ∈ design.nets, n.differential_pair = false := by
  rw [parse_circuit_data] at h
  obtain ⟨constraints_data, h1, h⟩ := except_bind_ok _ _ _ h
  obtain ⟨board_width, h2, h⟩ := except_bind_ok _ _ _ h
  obtain ⟨board_height, h3, h⟩ := except_bind_ok _ _ _ h
  obtain ⟨layer_count, h4, h⟩ := except_bind_ok _ _ _ h
  obtain ⟨min_trace_width, h5, h⟩ := except_bind_ok _ _ _ h
  obtain ⟨min_via_size, h6, h⟩ := except_bind_ok _ _ _ h
  obtain ⟨components_data, h7, h⟩ := except_bind_ok _ _ _ h
  obtain ⟨components, h8, h⟩ := except_bind_ok _ _ _ h
  obtain ⟨connections, h9, h⟩ := except_bind_ok _ _ _ h
  obtain ⟨nets, h10, h⟩ := except_bind_ok _ _ _ h
  injection h with h
  subst h
  exact parse_connections_not_diff connections [] nets
    (by intro n hn; exact absurd hn (List.not_mem_nil n)) h10

/-- Inverting a successful `generate_pcb_layout` call: the input was a dict,
it parsed, and the result and write log are the built pipeline outputs. -/
theorem generate_ok_inv (draws : ℕ → ℝ × ℝ)
    (output_dir : String) (circuit_data : PyVal) (project_name : String)
    (r : LayoutResults) (written : List String)
    (h : generate_pcb_layout draws output_dir circuit_data project_name =
      (.ok r, written)) :
    ∃ entries design, circuit_data = PyVal.dict entries ∧
      parse_circuit_data entries = .ok design ∧
      r = build_layout_results draws output_dir design project_name ∧
      written = written_files output_dir project_name := by
  cases circuit_data with
  | dict entries =>
      rw [generate_pcb_layout] at h
      cases hp : parse_circuit_data entries with
      | error e =>
          rw [hp] at h
          have hfst := congrArg Prod.fst h
          exact LayoutOutcome.noConfusion hfst
      | ok design =>
          rw [hp] at h
          have hfst := congrArg Prod.fst h
          have hsnd := congrArg Prod.snd h
          injection hfst with hr
          exact ⟨entries, design, rfl, hp, hr.symm, hsnd.symm⟩
  | lst l => exact LayoutOutcome.noConfusion (congrArg Prod.fst h)
  | str s => exact LayoutOutcome.noConfusion (congrArg Prod.fst h)
  | num x => exact LayoutOutcome.noConfusion (congrArg Prod.fst h)
  | null => exact LayoutOutcome.noConfusion (congrArg Prod.fst h)

/-- C10: for every input accepted by `generate_pcb_layout`, the
differential-pairs routing mapping in the result is empty: the parser
constructs every net with `differential_pair = false`, so the orchestrator
routes no net. -/
theorem routing_diff_pairs_empty (draws : ℕ → ℝ × ℝ)
    (output_dir : String) (circuit_data : PyVal) (project_name : String)
    (r : LayoutResults) (written : List String)
    (h : generate_pcb_layout draws output_dir circuit_data project_name =
      (.ok r, written)) :
    r.routing_differential_pairs = [] := by
  obtain ⟨entries, design, -, hp, hr, -⟩ :=
    generate_ok_inv draws output_dir circuit_data project_name r written h
  subst hr
  have hdp := parse_circuit_data_not_diff entries design hp
  have hfilter : design.nets.filter (fun net => net.differential_pair) = [] := by
    rw [List.filter_eq_nil_iff]
    intro n hn
    rw [hdp n hn]
    exact Bool.false_ne_true
  show (differential_pair_routing design.constraints
    (design.nets.filter (fun net => net.differential_pair)) 100.0) = []
  rw [hfilter]
  rfl

/-- The `PCBConstraints` produced by parsing an input with no `constraints`
section (all parse defaults). -/
noncomputable def parsed_default_constraints : PCBConstraints :=
  { board_width := 80.0
    board_height := 60.0
    min_trace_width := 0.2
    min_via_size := 0.3
    min_spacing := 0.2
    layer_count := 2
    max_current_density := 35.0 }

/-- The `PCBDesign` parsed from the empty circuit description `{}`. -/
noncomputable def design_empty : PCBDesign :=
  { components := []
    nets := []
    constraints := parsed_default_constraints
    board_outline :=
      [(0, 0), (80.0, 0), (80.0, 60.0), (0, 60.0), (0, 0)] }

/-- Parsing the empty circuit description yields the default design. -/
theorem parse_empty_input : parse_circuit_data [] = .ok design_empty := rfl

/-- Witness for C10: running the pipeline on the empty circuit description
`{}` succeeds and its differential-pairs routing mapping is empty. -/
theorem routing_diff_pairs_empty_witness :
    (build_layout_results (fun _ => ((0 : ℝ), (0 : ℝ))) "output" design_empty
      "circuit").routing_differential_pairs = [] :=
  routing_diff_pairs_empty (fun _ => ((0 : ℝ), (0 : ℝ))) "output"
    (PyVal.dict []) "circuit"
    (build_layout_results (fun _ => ((0 : ℝ), (0 : ℝ))) "output" design_empty
      "circuit")
    (written_files "output" "circuit") rfl

/-- A circuit description whose only content is one connection record with a
net name and no endpoints: its net gets the single pin `("", "1")`. -/
noncomputable def bad_net_input : PyVal :=
  PyVal.dict [("connections", PyVal.lst [PyVal.dict [("net", PyVal.str "N")]])]

/-- The net parsed from that connection record: one pin, normal priority. -/
noncomputable def net_N : RoutingNet :=
  { name := "N", pins := [("", "1")], priority := 3 }

/-- The design parsed from `bad_net_input`. -/
noncomputable def design_N : PCBDesign :=
  { components := []
    nets := [net_N]
    constraints := parsed_default_constraints
    board_outline :=
      [(0, 0), (80.0, 0), (80.0, 60.0), (0, 60.0), (0, 0)] }

/-- Parsing `bad_net_input` succeeds with the one-pin net `N`. -/
theorem parse_bad_net :
    parse_circuit_data
      [("connections", PyVal.lst [PyVal.dict [("net", PyVal.str "N")]])] =
      .ok design_N := rfl

/-- The full pipeline result for `bad_net_input`. -/
noncomputable def result_N : LayoutResults :=
  build_layout_results (fun _ => ((0 : ℝ), (0 : ℝ))) "output" design_N "circuit"

/-- The merged violation list of `comprehensive_rule_check`, spelled out. -/
theorem comprehensive_violations_decomp (cons : PCBConstraints)
    (d : PCBDesign) :
    (comprehensive_rule_check cons d).violations =
      (check_electrical_connectivity d).violations ++
      (check_manufacturing_constraints cons d).violations ++
      (check_signal_integrity_rules d).violations ++
      (check_thermal_management d).violations := rfl

/-- The signal-integrity rule category produces warnings only. -/
theorem si_violations_nil (d : PCBDesign) :
    (check_signal_integrity_rules d).violations = [] := rfl

/-- The thermal rule category produces warnings only. -/
theorem thermal_violations_nil (d : PCBDesign) :
    (check_thermal_management d).violations = [] := rfl

/-- With a manufacturable trace width and via size, the manufacturing rule
category produces no violations. -/
theorem manufacturing_violations_nil (cons : PCBConstraints) (d : PCBDesign)
    (h1 : ¬ (cons.min_trace_width < 0.1)) (h2 : ¬ (cons.min_via_size < 0.2)) :
    (check_manufacturing_constraints cons d).violations = [] := by
  simp only [check_manufacturing_constraints]
  rw [if_neg h1, if_neg h2]
  rfl

/-- The DRC result of the `bad_net_input` pipeline run. -/
theorem result_N_drc : result_N.drc_results =
    comprehensive_rule_check parsed_default_constraints design_N := rfl

/-- The only DRC violation of the `bad_net_input` run is the insufficient
connections of net `N`. -/
theorem result_N_violations :
    result_N.drc_results.violations =
      ["Net " ++ "N" ++ " has insufficient connections"] := by
  rw [result_N_drc, comprehensive_violations_decomp,
    manufacturing_violations_nil parsed_default_constraints design_N
      (by rw [show parsed_default_constraints.min_trace_width = (0.2 : ℝ)
            from rfl]
          norm_num)
      (by rw [show parsed_default_constraints.min_via_size = (0.3 : ℝ)
            from rfl]
          norm_num),
    si_violations_nil, thermal_violations_nil]
  rfl

/-- The `bad_net_input` run ends with `success = false` (its DRC found a
violation). -/
theorem result_N_success_false : result_N.success = false := by
  have hs : result_N.success =
      (result_N.drc_results.violations.length == 0) := rfl
  rw [hs, result_N_violations]
  rfl

/-- C1 counterexample: on `bad_net_input` the pipeline runs to the end (the
result is the `ok` record, DRC ran and reported the violation, manufacturing
files are present), yet `success` is `false` — the code sets `success` to
the DRC pass flag, not to `true` whenever DRC ran. -/
theorem layout_success_counterexample :
    (generate_pcb_layout (fun _ => ((0 : ℝ), (0 : ℝ))) "output" bad_net_input
        "circuit").1 = .ok result_N ∧
    result_N.drc_results.violations =
      ["Net " ++ "N" ++ " has insufficient connections"] ∧
    result_N.manufacturing_files.length = 9 ∧
    result_N.success = false :=
  ⟨rfl, result_N_violations, rfl, result_N_success_false⟩

/-- C1, amended: whenever the pipeline runs to the end, the result's
`success` field equals the DRC pass flag (not `true` unconditionally), and
the result still contains the 9 manufacturing files, the 3 assembly
documents, and their write log — regardless of whether the DRC passed. -/
theorem layout_success_iff_drc_pass (draws : ℕ → ℝ × ℝ)
    (output_dir : String) (circuit_data : PyVal) (project_name : String)
    (r : LayoutResults) (written : List String)
    (h : generate_pcb_layout draws output_dir circuit_data project_name =
      (.ok r, written)) :
    r.success = r.drc_results.drc_pass ∧
    r.manufacturing_files.length = 9 ∧
    r.assembly_documentation.length = 3 ∧
    r.bom = generate_optimized_bom r.pcb_design.components ∧
    written.length = 12 := by
  obtain ⟨entries, design, -, -, hr, hw⟩ :=
    generate_ok_inv draws output_dir circuit_data project_name r written h
  subst hr
  subst hw
  exact ⟨rfl, rfl, rfl, rfl, rfl⟩

/-- Witness for C1 at the concrete input `bad_net_input` (a run whose DRC
fails, exercising the `success = pass` equality with `pass = false`). -/
theorem layout_success_iff_drc_pass_witness :
    result_N.success = result_N.drc_results.drc_pass ∧
    result_N.manufacturing_files.length = 9 ∧
    result_N.assembly_documentation.length = 3 ∧
    result_N.bom = generate_optimized_bom result_N.pcb_design.components ∧
    (written_files "output" "circuit").length = 12 :=
  layout_success_iff_drc_pass (fun _ => ((0 : ℝ), (0 : ℝ))) "output"
    bad_net_input "circuit" result_N (written_files "output" "circuit") rfl

/-- Appending to a non-empty string never yields the empty string. -/
theorem append_ne_empty_left (s t : String) (hs : s.length ≠ 0) :
    s ++ t ≠ "" := by
  intro h
  have hl := congrArg String.length h
  rw [String.length_append] at hl
  have hz : ("" : String).length = 0 := rfl
  rw [hz] at hl
  omega

/-- C8: on malformed input — a non-dict circuit description, or a
`components` field that is neither a list nor a dict — `generate_pcb_layout`
returns a failure record with a non-empty error and the project name, and
writes no files (no pipeline stage runs). -/
theorem malformed_input_failure (draws : ℕ → ℝ × ℝ)
    (output_dir project_name : String) (v : PyVal) (x : ℝ)
    (hv : ∀ entries, v ≠ PyVal.dict entries) :
    (generate_pcb_layout draws output_dir v project_name =
      (.failure ("Expected dict for circuit_data, got " ++ py_type_name v)
        project_name, []) ∧
      ("Expected dict for circuit_data, got " ++ py_type_name v) ≠ "") ∧
    (generate_pcb_layout draws output_dir
        (PyVal.dict [("components", PyVal.num x)]) project_name =
      (.failure "TypeError: components object is not iterable"
        project_name, []) ∧
      ("TypeError: components object is not iterable" : String) ≠ "") := by
  refine ⟨⟨?_, ?_⟩, ?_, by decide⟩
  · cases v with
    | dict entries => exact absurd rfl (hv entries)
    | lst l => rfl
    | str s => rfl
    | num y => rfl
    | null => rfl
  · exact append_ne_empty_left _ _ (by decide)
  · rfl

/-- Witness for C8 at the concrete malformed inputs `[]` (a list, not a
dict) and `{components: 5.0}`. -/
theorem malformed_input_failure_witness :
    (generate_pcb_layout (fun _ => ((0 : ℝ), (0 : ℝ))) "output"
        (PyVal.lst []) "circuit" =
      (.failure ("Expected dict for circuit_data, got " ++
        py_type_name (PyVal.lst [])) "circuit", []) ∧
      ("Expected dict for circuit_data, got " ++
        py_type_name (PyVal.lst [])) ≠ "") ∧
    (generate_pcb_layout (fun _ => ((0 : ℝ), (0 : ℝ))) "output"
        (PyVal.dict [("components", PyVal.num 5)]) "circuit" =
      (.failure "TypeError: components object is not iterable"
        "circuit", []) ∧
      ("TypeError: components object is not iterable" : String) ≠ "") :=
  malformed_input_failure (fun _ => ((0 : ℝ), (0 : ℝ))) "output" "circuit"
    (PyVal.lst []) 5 (fun _ h => PyVal.noConfusion h)

end PcbLayout
